import Mathlib

/-!
Verification of the product-importer system against its specification.

The repository's sources in scope are the React client components
(FileUpload, ProductModal, WebhookManager, ProductTable) together with the
project README.  The Python backend (FastAPI routes, Celery worker, upsert
SQL) is not among the sources, so the backend-side operations that some
claims need (the import upsert executor, the webhook test endpoint) are
modelled from the specification text; every such definition is marked
"Modelled from the spec".  All other definitions are direct shallow
embeddings of the JavaScript source.

JavaScript string operations are embedded as list-of-character functions so
that everything evaluates inside the kernel.
-/

namespace ProductImporter

/-- Embedding of JavaScript `s.endsWith(suffix)`: suffix test on the
character sequence. -/
def strEndsWith (s suffix : String) : Bool :=
  s.data.reverse.take suffix.data.length == suffix.data.reverse

/-- Embedding of JavaScript `s.trim()`: drop whitespace at both ends. -/
def strTrim (s : String) : String :=
  ⟨((s.data.dropWhile Char.isWhitespace).reverse.dropWhile Char.isWhitespace).reverse⟩

/-- Empty-string test on the character sequence (JS falsiness of a string). -/
def strIsEmpty (s : String) : Bool := s.data.isEmpty

/-! ### Data model (spec §3) -/

/-- One catalog item: `sku` unique key, `name`, `description`, and the
`is_active` flag that direct edits may change but imports must not. -/
structure Product where
  sku : String
  name : String
  description : String
  is_active : Bool
deriving Repr, DecidableEq

/-- One normalized CSV row: the `(sku, name, description)` triple produced by
the Row Normalizer. -/
structure Row where
  sku : String
  name : String
  description : String
deriving Repr, DecidableEq

/-- Look a sku up in the catalog (first matching row; the store keeps skus
unique, so first match is the match). -/
def lookupSku (c : List Product) (s : String) : Option Product :=
  match c with
  | [] => none
  | p :: ps => if p.sku == s then some p else lookupSku ps s

/-! ### Upsert executor

Modelled from the spec: the backend Upsert Executor (Celery worker / SQL
`ON CONFLICT` statement) is not among the repository sources.  Spec §4.3:
on a `sku` conflict, `name` and `description` are overwritten but
`is_active` is left untouched; a fresh sku is inserted, and `is_active`
defaults to true (§3).  The README (Key Features: "Smart updates: preserves
`is_active` status on existing products") states the same behaviour. -/

/-- Modelled from the spec: apply one normalized row to the catalog — update
`name`/`description` in place on a sku conflict, else insert with
`is_active := true`. -/
def upsertRow (c : List Product) (r : Row) : List Product :=
  match c with
  | [] => [⟨r.sku, r.name, r.description, true⟩]
  | p :: ps =>
    if p.sku == r.sku then
      { p with name := r.name, description := r.description } :: ps
    else
      p :: upsertRow ps r

/-- Modelled from the spec: apply one batch of rows in file order. -/
def upsertBatch (c : List Product) (rs : List Row) : List Product :=
  rs.foldl upsertRow c

/-- Modelled from the spec: a whole import is the batches applied in
sequence. -/
def importUpsert (c : List Product) (batches : List (List Row)) : List Product :=
  batches.foldl upsertBatch c

theorem lookupSku_upsertRow (c : List Product) (r : Row) (s : String)
    (p : Product) (h : lookupSku c s = some p) :
    ∃ q, lookupSku (upsertRow c r) s = some q ∧ q.is_active = p.is_active := by
  induction c with
  | nil => simp [lookupSku] at h
  | cons a as ih =>
    by_cases har : (a.sku == r.sku) = true
    · by_cases has : (a.sku == s) = true
      · simp [lookupSku, has] at h
        exact ⟨{ a with name := r.name, description := r.description },
          by simp [upsertRow, har, lookupSku, has], by simp [← h]⟩
      · simp [lookupSku, has] at h
        exact ⟨p, by simp [upsertRow, har, lookupSku, has, h], rfl⟩
    · by_cases has : (a.sku == s) = true
      · simp [lookupSku, has] at h
        exact ⟨a, by simp [upsertRow, har, lookupSku, has], by simp [← h]⟩
      · simp [lookupSku, has] at h
        obtain ⟨q, hq, hact⟩ := ih h
        exact ⟨q, by simp [upsertRow, har, lookupSku, has, hq], hact⟩

theorem lookupSku_upsertBatch (rs : List Row) (c : List Product) (s : String)
    (p : Product) (h : lookupSku c s = some p) :
    ∃ q, lookupSku (upsertBatch c rs) s = some q ∧ q.is_active = p.is_active := by
  induction rs generalizing c p with
  | nil => exact ⟨p, h, rfl⟩
  | cons r rs ih =>
    obtain ⟨q, hq, hact⟩ := lookupSku_upsertRow c r s p h
    obtain ⟨q', hq', hact'⟩ := ih (upsertRow c r) q hq
    exact ⟨q', by simpa [upsertBatch] using hq', hact'.trans hact⟩

/-- C1: a product already present in the catalog keeps its `is_active` value
across an import upsert — only `name` and `description` are touched — for
every batch and every import. -/
theorem import_upsert_preserves_is_active (c : List Product)
    (batches : List (List Row)) (s : String) (p : Product)
    (h : lookupSku c s = some p) :
    ∃ q, lookupSku (importUpsert c batches) s = some q ∧
      q.is_active = p.is_active := by
  induction batches generalizing c p with
  | nil => exact ⟨p, h, rfl⟩
  | cons b bs ih =>
    obtain ⟨q, hq, hact⟩ := lookupSku_upsertBatch b c s p h
    obtain ⟨q', hq', hact'⟩ := ih (upsertBatch c b) q hq
    exact ⟨q', by simpa [importUpsert] using hq', hact'.trans hact⟩

/-- A deactivated product stays deactivated when an import re-imports its
sku with new name and description. -/
theorem import_upsert_preserves_is_active_check :
    lookupSku [⟨"A1", "Widget", "d1", false⟩] "A1" =
      some ⟨"A1", "Widget", "d1", false⟩ ∧
    ∃ q, lookupSku (importUpsert [⟨"A1", "Widget", "d1", false⟩]
        [[⟨"A1", "Widget v2", "d2"⟩]]) "A1" = some q ∧
      q.is_active = (Product.mk "A1" "Widget" "d1" false).is_active :=
  ⟨by decide, import_upsert_preserves_is_active _ _ _ _ (by decide)⟩

/-! ### FileUpload component (src/frontend/src/components/FileUpload.jsx)

State of the component: the `useState` hooks `file`, `uploading`, `taskId`,
`status`, `progress`, `error`.  The selected file is represented by its
name, which is all the component logic inspects. -/

/-- A progress snapshot as the status endpoint reports it: `current` and
`total` are JS numbers that may be absent or null. -/
structure Progress where
  current : Option Int
  total : Option Int
deriving Repr, DecidableEq

/-- The FileUpload component's state hooks. -/
structure UploadState where
  file : Option String
  uploading : Bool
  taskId : Option String
  status : Option String
  progress : Option Progress
  error : Option String
deriving Repr, DecidableEq

/-- The initial hook values: `useState(null)` / `useState(false)`. -/
def initialUploadState : UploadState :=
  ⟨none, false, none, none, none, none⟩

/-- FileUpload.jsx `handleFileChange` (lines 24–38): a `.csv` name is kept
and stale error/status/progress cleared; any other name is rejected with
"Please select a CSV file" and the selection cleared; no file selected
changes nothing. -/
def handleFileChange (s : UploadState) (selected : Option String) : UploadState :=
  match selected with
  | none => s
  | some fname =>
    if strEndsWith fname ".csv" then
      { s with file := some fname, error := none, status := none, progress := none }
    else
      { s with error := some "Please select a CSV file", file := none }

/-- The remove-file button (FileUpload.jsx lines 159–166). -/
def removeFile (s : UploadState) : UploadState :=
  { s with file := none, error := none, status := none, progress := none }

/-- A POST /upload request, carrying the selected file. -/
structure UploadRequest where
  fileName : String
deriving Repr, DecidableEq

/-- FileUpload.jsx `handleUpload` (lines 40–74), up to the point the POST is
issued: with no file selected it sets "Please select a file first" and sends
nothing; otherwise it enters the uploading state and emits the POST /upload
request for the selected file. -/
def handleUpload (s : UploadState) : UploadState × Option UploadRequest :=
  match s.file with
  | none => ({ s with error := some "Please select a file first" }, none)
  | some f =>
    ({ s with uploading := true, error := none,
              status := some "Uploading file..." }, some ⟨f⟩)

/-- Resolution of the POST /upload request (FileUpload.jsx lines 64–73):
on success the task id is stored, on failure the error detail (or "Upload
failed") is shown and uploading stops. -/
def handleUploadResponse (s : UploadState) (resp : Except (Option String) String) :
    UploadState :=
  match resp with
  | .ok tid => { s with taskId := some tid, status := some "Processing..." }
  | .error detail =>
    { s with error := some (detail.getD "Upload failed"), uploading := false }

/-- Body of one GET /upload/status/{task_id} response. -/
structure PollResponse where
  status : String
  message : String
  progress : Option Progress
  error : Option String
deriving Repr, DecidableEq

/-- The polling cadence passed to `setInterval` (FileUpload.jsx line 115),
in milliseconds. -/
def pollDelayMs : Nat := 2000

/-- A status whose arrival terminates polling. -/
def isTerminalStatus (st : String) : Bool :=
  st == "completed" || st == "failed"

/-- One tick of the poll interval (FileUpload.jsx lines 79–115).  The
argument is the outcome of the GET: `.error` when the request threw (the
empty catch block), `.ok data` otherwise.  Returns the new state and
whether this tick called `clearInterval`. -/
def pollTick (s : UploadState) (r : Except Unit PollResponse) :
    UploadState × Bool :=
  match r with
  | .error _ => (s, false)
  | .ok data =>
    let s1 := { s with status := some data.message, progress := data.progress }
    if data.status == "completed" then
      ({ s1 with uploading := false,
                 status := some "Upload completed successfully!",
                 file := none, taskId := none }, true)
    else if data.status == "failed" then
      ({ s1 with uploading := false,
                 error := some (data.error.getD "Processing failed"),
                 taskId := none }, true)
    else (s1, false)

/-- Whether a tick outcome stops the interval. -/
def tickStops (r : Except Unit PollResponse) : Bool :=
  match r with
  | .error _ => false
  | .ok data => isTerminalStatus data.status

/-- Run the poll loop over a stream of tick outcomes, one per interval
firing; stop at the first tick that clears the interval.  Returns the final
state and the number of status requests issued. -/
def pollRun (s : UploadState) : List (Except Unit PollResponse) → UploadState × Nat
  | [] => (s, 0)
  | r :: rs =>
    let t := pollTick s r
    if t.2 then (t.1, 1)
    else ((pollRun t.1 rs).1, (pollRun t.1 rs).2 + 1)

/-- The states the FileUpload component can reach from its initial render
through its event handlers. -/
inductive UploadReachable : UploadState → Prop
  | init : UploadReachable initialUploadState
  | fileChange {s : UploadState} (sel : Option String) :
      UploadReachable s → UploadReachable (handleFileChange s sel)
  | remove {s : UploadState} :
      UploadReachable s → UploadReachable (removeFile s)
  | upload {s : UploadState} :
      UploadReachable s → UploadReachable (handleUpload s).1
  | uploadResponse {s : UploadState} (resp : Except (Option String) String) :
      UploadReachable s → UploadReachable (handleUploadResponse s resp)
  | tick {s : UploadState} (r : Except Unit PollResponse) :
      UploadReachable s → UploadReachable (pollTick s r).1

/-- In every reachable state, a selected file has a `.csv` name: only
`handleFileChange` ever sets the selection, and it filters on the name. -/
theorem reachable_file_csv {s : UploadState} (hs : UploadReachable s)
    (f : String) (hf : s.file = some f) : strEndsWith f ".csv" = true := by
  induction hs generalizing f with
  | init => simp [initialUploadState] at hf
  | fileChange sel _ ih =>
    cases sel with
    | none => exact ih f hf
    | some fname =>
      by_cases hcsv : strEndsWith fname ".csv" = true
      · simp [handleFileChange, hcsv] at hf
        exact hf ▸ hcsv
      · simp [handleFileChange, hcsv] at hf
  | remove _ ih => simp [removeFile] at hf
  | upload _ ih =>
    rename_i s' _
    cases hfile : s'.file with
    | none => simp [handleUpload, hfile] at hf
    | some g => simp [handleUpload, hfile] at hf; exact ih f (by simp [hfile, hf])
  | uploadResponse resp _ ih =>
    cases resp with
    | ok tid => simp [handleUploadResponse] at hf; exact ih f hf
    | error d => simp [handleUploadResponse] at hf; exact ih f hf
  | tick r _ ih =>
    rename_i s' _
    cases r with
    | error u => exact ih f hf
    | ok data =>
      by_cases hc : (data.status == "completed") = true
      · simp [pollTick, hc] at hf
      · by_cases hfl : (data.status == "failed") = true
        · simp [pollTick, hc, hfl] at hf; exact ih f hf
        · simp [pollTick, hc, hfl] at hf; exact ih f hf

theorem pollTick_snd (s : UploadState) (r : Except Unit PollResponse) :
    (pollTick s r).2 = tickStops r := by
  cases r with
  | error u => rfl
  | ok data =>
    by_cases hc : (data.status == "completed") = true
    · simp [pollTick, tickStops, isTerminalStatus, hc]
    · by_cases hfl : (data.status == "failed") = true
      · simp [pollTick, tickStops, isTerminalStatus, hc, hfl]
      · simp [pollTick, tickStops, isTerminalStatus, hc, hfl]

theorem pollRun_count (rs : List (Except Unit PollResponse)) (s : UploadState) :
    (pollRun s rs).2 =
      min ((rs.takeWhile (fun r => !tickStops r)).length + 1) rs.length := by
  induction rs generalizing s with
  | nil => simp [pollRun]
  | cons r rs ih =>
    by_cases h : tickStops r = true
    · simp [pollRun, pollTick_snd, h, List.takeWhile]
    · simp only [Bool.not_eq_true] at h
      simp [pollRun, pollTick_snd, h, List.takeWhile, ih]
      omega

/-- C2: a selected file whose name does not end in ".csv" is rejected on the
spot — the error "Please select a CSV file" is set and the selection
cleared — and no reachable state of the component ever emits a POST /upload
request carrying that file. -/
theorem non_csv_file_rejected (s : UploadState) (fname : String)
    (h : strEndsWith fname ".csv" = false)
    (s' : UploadState) (hs' : UploadReachable s')
    (req : UploadRequest) (hreq : (handleUpload s').2 = some req) :
    (handleFileChange s (some fname)).error = some "Please select a CSV file" ∧
    (handleFileChange s (some fname)).file = none ∧
    req.fileName ≠ fname := by
  refine ⟨by simp [handleFileChange, h], by simp [handleFileChange, h], ?_⟩
  cases hfile : s'.file with
  | none => simp [handleUpload, hfile] at hreq
  | some g =>
    simp [handleUpload, hfile] at hreq
    have hcsv := reachable_file_csv hs' g hfile
    intro heq
    rw [← hreq] at heq
    simp at heq
    rw [heq] at hcsv
    simp [hcsv] at h

/-- A rejected .txt selection next to an accepted .csv upload: the theorem
applied at a concrete pair of inputs. -/
theorem non_csv_file_rejected_check :
    strEndsWith "notes.txt" ".csv" = false ∧
    (handleUpload (handleFileChange initialUploadState (some "data.csv"))).2 =
      some ⟨"data.csv"⟩ ∧
    ((handleFileChange initialUploadState (some "notes.txt")).error =
        some "Please select a CSV file" ∧
      (handleFileChange initialUploadState (some "notes.txt")).file = none ∧
      (UploadRequest.mk "data.csv").fileName ≠ "notes.txt") :=
  ⟨by decide, by decide,
    non_csv_file_rejected initialUploadState "notes.txt" (by decide)
      (handleFileChange initialUploadState (some "data.csv"))
      (.fileChange _ .init) ⟨"data.csv"⟩ (by decide)⟩

/-- C3: the poll interval fires every 2000 ms; a tick clears the interval
and the task id exactly when the response status is "completed" or
"failed", and a run of the loop issues one status request per tick up to
and including the first terminal response, none after. -/
theorem poll_stops_exactly_on_terminal (s : UploadState) (data : PollResponse)
    (rs : List (Except Unit PollResponse)) :
    pollDelayMs = 2000 ∧
    ((pollTick s (.ok data)).2 = true ∧ (pollTick s (.ok data)).1.taskId = none ↔
      data.status = "completed" ∨ data.status = "failed") ∧
    (pollRun s rs).2 =
      min ((rs.takeWhile (fun r => !tickStops r)).length + 1) rs.length := by
  refine ⟨rfl, ?_, pollRun_count rs s⟩
  constructor
  · rintro ⟨h1, -⟩
    rw [pollTick_snd] at h1
    simpa [tickStops, isTerminalStatus] using h1
  · rintro (h | h) <;> simp [pollTick, h]

/-- C9: a poll tick whose request throws changes nothing — same state, task
id kept, interval not cleared — and a run beginning with such a tick just
adds its one request to the run on the remaining ticks. -/
theorem poll_error_tick_is_noop (s : UploadState)
    (rs : List (Except Unit PollResponse)) :
    pollTick s (.error ()) = (s, false) ∧
    pollRun s (.error () :: rs) =
      ((pollRun s rs).1, (pollRun s rs).2 + 1) := by
  exact ⟨rfl, by simp [pollRun, pollTick]⟩

/-- C10: invoking the upload handler with no file selected emits no POST
/upload request and sets "Please select a file first"; conversely every
emitted POST /upload request carries a selected file. -/
theorem upload_without_file_rejected (s : UploadState) (h : s.file = none)
    (s' : UploadState) (req : UploadRequest)
    (hreq : (handleUpload s').2 = some req) :
    (handleUpload s).2 = none ∧
    (handleUpload s).1.error = some "Please select a file first" ∧
    s'.file = some req.fileName := by
  refine ⟨by simp [handleUpload, h], by simp [handleUpload, h], ?_⟩
  cases hfile : s'.file with
  | none => simp [handleUpload, hfile] at hreq
  | some g => simp [handleUpload, hfile] at hreq; simp [hfile, ← hreq]

/-- The upload handler applied with nothing selected, next to an upload from
a state with a selected file. -/
theorem upload_without_file_rejected_check :
    initialUploadState.file = none ∧
    (handleUpload (handleFileChange initialUploadState (some "data.csv"))).2 =
      some ⟨"data.csv"⟩ ∧
    ((handleUpload initialUploadState).2 = none ∧
      (handleUpload initialUploadState).1.error = some "Please select a file first" ∧
      (handleFileChange initialUploadState (some "data.csv")).file =
        some (UploadRequest.mk "data.csv").fileName) :=
  ⟨rfl, by decide,
    upload_without_file_rejected initialUploadState rfl
      (handleFileChange initialUploadState (some "data.csv"))
      ⟨"data.csv"⟩ (by decide)⟩

/-! ### Progress rendering (FileUpload.jsx lines 120–123 and 283–304) -/

/-- JavaScript `Math.round`: round half toward positive infinity. -/
def mathRound (q : ℚ) : ℤ := ⌊q + 1 / 2⌋

/-- FileUpload.jsx `getProgressPercentage` (lines 120–123): 0 when there is
no snapshot or no positive total — the JS falsiness test `!progress.total`
already covers an absent, null or zero total, and the `=== 0` comparison is
a second guard on the same case; otherwise
`Math.round((current / total) * 100)`.  An absent `current` (which the
status endpoint never pairs with a known total) is read as 0. -/
def getProgressPercentage (progress : Option Progress) : ℤ :=
  match progress with
  | none => 0
  | some p =>
    match p.total with
    | none => 0
    | some t =>
      if t = 0 then 0
      else mathRound ((((p.current.getD 0 : ℤ) : ℚ) / ((t : ℤ) : ℚ)) * 100)

/-- The two shapes of the progress line. -/
inductive ProgressDisplay where
  | rowsProcessed (current : ℤ)
  | outOfTotal (current total percentage : ℤ)
deriving Repr, DecidableEq

/-- The progress line of FileUpload.jsx (lines 283–304): with a positive
total, "Progress: current / total" plus the percentage badge; otherwise
"Processed: current products" (the JS comparison `total > 0` is false for a
null or absent total). -/
def progressDisplay (p : Progress) : ProgressDisplay :=
  match p.total with
  | some t =>
    if 0 < t then .outOfTotal (p.current.getD 0) t (getProgressPercentage (some p))
    else .rowsProcessed (p.current.getD 0)
  | none => .rowsProcessed (p.current.getD 0)

/-- C4: with the total absent, null or zero the client shows the
rows-processed line and the percentage is 0, no division performed; with a
positive total it shows current / total with percentage
`Math.round((current / total) * 100)`. -/
theorem progress_percentage_spec (cur : Option ℤ) (c t : ℤ) (ht : 0 < t) :
    progressDisplay ⟨cur, none⟩ = .rowsProcessed (cur.getD 0) ∧
    getProgressPercentage (some ⟨cur, none⟩) = 0 ∧
    progressDisplay ⟨cur, some 0⟩ = .rowsProcessed (cur.getD 0) ∧
    getProgressPercentage (some ⟨cur, some 0⟩) = 0 ∧
    progressDisplay ⟨some c, some t⟩ =
      .outOfTotal c t (mathRound (((c : ℚ) / (t : ℚ)) * 100)) ∧
    getProgressPercentage (some ⟨some c, some t⟩) =
      mathRound (((c : ℚ) / (t : ℚ)) * 100) := by
  have hne : t ≠ 0 := by omega
  refine ⟨rfl, rfl, by simp [progressDisplay], by simp [getProgressPercentage], ?_, ?_⟩
  · simp [progressDisplay, ht, getProgressPercentage, hne]
  · simp [getProgressPercentage, hne]

/-- The progress forms at a snapshot of 1 of 3 rows (33%) and at snapshots
with an unknown or zero total. -/
theorem progress_percentage_spec_check :
    (0 : ℤ) < 3 ∧
    (progressDisplay ⟨some 1, none⟩ = .rowsProcessed ((some (1 : ℤ)).getD 0) ∧
      getProgressPercentage (some ⟨some 1, none⟩) = 0 ∧
      progressDisplay ⟨some 1, some 0⟩ = .rowsProcessed ((some (1 : ℤ)).getD 0) ∧
      getProgressPercentage (some ⟨some 1, some 0⟩) = 0 ∧
      progressDisplay ⟨some 1, some 3⟩ =
        .outOfTotal 1 3 (mathRound (((1 : ℤ) : ℚ) / ((3 : ℤ) : ℚ) * 100)) ∧
      getProgressPercentage (some ⟨some 1, some 3⟩) =
        mathRound (((1 : ℤ) : ℚ) / ((3 : ℤ) : ℚ) * 100)) :=
  ⟨by norm_num, progress_percentage_spec (some 1) 1 3 (by norm_num)⟩

/-! ### ProductModal component (src/frontend/src/components/ProductModal.jsx) -/

/-- The modal's `formData` hook. -/
structure ProductFormData where
  sku : String
  name : String
  description : String
  is_active : Bool
deriving Repr, DecidableEq

/-- The `useEffect` that seeds `formData` (ProductModal.jsx lines 14–31):
edit mode copies the product's fields, create mode starts blank with
`is_active` true. -/
def initialFormData (initialData : Option Product) : ProductFormData :=
  match initialData with
  | some p => ⟨p.sku, p.name, p.description, p.is_active⟩
  | none => ⟨"", "", "", true⟩

/-- One change event on the form's inputs. -/
inductive FormEvent where
  | setSku (v : String)
  | setName (v : String)
  | setDescription (v : String)
  | setActive (b : Bool)
deriving Repr, DecidableEq

/-- ProductModal.jsx `handleChange` (lines 33–43), restricted to the form
data: store the changed field's value. -/
def handleChange (d : ProductFormData) : FormEvent → ProductFormData
  | .setSku v => { d with sku := v }
  | .setName v => { d with name := v }
  | .setDescription v => { d with description := v }
  | .setActive b => { d with is_active := b }

/-- Whether an input can fire a change event: the sku input carries
`disabled` exactly in edit mode (ProductModal.jsx line 106), so a disabled
sku input delivers no change events. -/
def eventEnabled (isEditMode : Bool) : FormEvent → Bool
  | .setSku _ => !isEditMode
  | _ => true

/-- The form data after a sequence of user edits in the given mode. -/
def applyEvents (isEditMode : Bool) (d : ProductFormData)
    (es : List FormEvent) : ProductFormData :=
  es.foldl (fun d e => if eventEnabled isEditMode e then handleChange d e else d) d

/-- ProductModal.jsx `validate` (lines 45–58): sku and name must be
non-empty after trimming. -/
def validate (d : ProductFormData) : Bool :=
  !(strIsEmpty (strTrim d.sku)) && !(strIsEmpty (strTrim d.name))

/-- ProductModal.jsx `handleSubmit` (lines 60–66): `onSubmit(formData)` is
called exactly when validation passes. -/
def handleSubmit (d : ProductFormData) : Option ProductFormData :=
  if validate d then some d else none

theorem applyEvents_edit_sku (d : ProductFormData) (es : List FormEvent) :
    (applyEvents true d es).sku = d.sku := by
  induction es generalizing d with
  | nil => rfl
  | cons e es ih =>
    have hstep : applyEvents true d (e :: es) =
        applyEvents true (if eventEnabled true e then handleChange d e else d) es := rfl
    rw [hstep, ih]
    cases e <;> simp [eventEnabled, handleChange]

/-- C6: a create submission with a sku that is empty after trimming never
reaches `onSubmit`; and in edit mode the sku input is disabled, so any
submitted form data carries the product's existing sku unchanged. -/
theorem sku_required_and_immutable (d : ProductFormData)
    (hd : strIsEmpty (strTrim d.sku) = true)
    (p : Product) (es : List FormEvent) (out : ProductFormData)
    (hout : handleSubmit (applyEvents true (initialFormData (some p)) es) = some out) :
    handleSubmit d = none ∧ out.sku = p.sku := by
  constructor
  · simp [handleSubmit, validate, hd]
  · have hsku : (applyEvents true (initialFormData (some p)) es).sku = p.sku :=
      applyEvents_edit_sku _ es
    unfold handleSubmit at hout
    split at hout
    · cases hout
      exact hsku
    · cases hout

/-- A whitespace-only sku blocks creation, while an edit session that
changes the name keeps the original sku in the submitted data. -/
theorem sku_required_and_immutable_check :
    strIsEmpty (strTrim "   ") = true ∧
    handleSubmit (applyEvents true
        (initialFormData (some ⟨"S1", "Widget", "", true⟩))
        [.setName "Widget v2"]) = some ⟨"S1", "Widget v2", "", true⟩ ∧
    (handleSubmit ⟨"   ", "Widget", "", true⟩ = none ∧
      (ProductFormData.mk "S1" "Widget v2" "" true).sku =
        (Product.mk "S1" "Widget" "" true).sku) :=
  ⟨by decide, by decide,
    sku_required_and_immutable ⟨"   ", "Widget", "", true⟩ (by decide)
      ⟨"S1", "Widget", "", true⟩ [.setName "Widget v2"]
      ⟨"S1", "Widget v2", "", true⟩ (by decide)⟩

/-! ### WebhookManager component (src/unnamed/part_000, WebhookManager) -/

/-- One configured webhook as GET /webhooks returns it. -/
structure Webhook where
  id : Nat
  url : String
  event_type : String
  is_active : Bool
deriving Repr, DecidableEq

/-- Body of the POST /webhooks request. -/
structure WebhookPost where
  url : String
  event_type : String
  is_active : Bool
deriving Repr, DecidableEq

/-- WebhookManager state: the loaded webhook list, the url input, and the
`urlError` field error (a string; empty when clear, as in the source). -/
structure WebhookManagerState where
  webhooks : List Webhook
  newUrl : String
  urlError : String
deriving Repr, DecidableEq

/-- WebhookManager `handleAddWebhook` (part_000 lines 1269–1306), up to the
point the POST is issued.  `isValidURL` stands for the `new URL(...)`
constructor succeeding; the handler is otherwise independent of the URL
grammar.  Returns the new state and the emitted POST body, if any. -/
def handleAddWebhook (isValidURL : String → Bool) (s : WebhookManagerState) :
    WebhookManagerState × Option WebhookPost :=
  let trimmedUrl := strTrim s.newUrl
  if strIsEmpty trimmedUrl then
    ({ s with urlError := "Please enter a URL" }, none)
  else if !isValidURL trimmedUrl then
    ({ s with urlError := "Please enter a valid URL (e.g., https://example.com/webhook)" },
      none)
  else if s.webhooks.any (fun w => w.url == trimmedUrl) then
    ({ s with urlError := "This webhook URL already exists" }, none)
  else
    ({ s with urlError := "" }, some ⟨trimmedUrl, "import.completed", true⟩)

/-- C7: every webhook-create request the manager emits carries event_type
"import.completed" and is_active true — no other event type can be
submitted from the client. -/
theorem webhook_created_import_completed (v : String → Bool)
    (s : WebhookManagerState) (req : WebhookPost)
    (hreq : (handleAddWebhook v s).2 = some req) :
    req.event_type = "import.completed" ∧ req.is_active = true := by
  by_cases h1 : strIsEmpty (strTrim s.newUrl) = true
  · simp [handleAddWebhook, h1] at hreq
  · by_cases h2 : v (strTrim s.newUrl) = true
    · by_cases h3 : s.webhooks.any (fun w => w.url == strTrim s.newUrl) = true
      · simp [handleAddWebhook, h1, h2, h3] at hreq
      · simp [handleAddWebhook, h1, h2, h3] at hreq
        simp [← hreq]
    · simp [handleAddWebhook, h1, h2] at hreq

/-- The add handler applied to a fresh valid url: the emitted request is
pinned to the import.completed event and active. -/
theorem webhook_created_import_completed_check :
    (handleAddWebhook (fun _ => true)
        ⟨[], "https://example.com/hook", ""⟩).2 =
      some ⟨"https://example.com/hook", "import.completed", true⟩ ∧
    ((WebhookPost.mk "https://example.com/hook" "import.completed" true).event_type =
        "import.completed" ∧
      (WebhookPost.mk "https://example.com/hook" "import.completed" true).is_active =
        true) :=
  ⟨by decide,
    webhook_created_import_completed (fun _ => true)
      ⟨[], "https://example.com/hook", ""⟩
      ⟨"https://example.com/hook", "import.completed", true⟩ (by decide)⟩

/-- C8: a submission whose trimmed url is empty, unparseable, or already in
the loaded list emits no POST, leaves the webhook list unchanged and sets a
field error — "This webhook URL already exists" when the duplicate branch
is the one taken. -/
theorem invalid_webhook_url_rejected (v : String → Bool)
    (s : WebhookManagerState)
    (h : strIsEmpty (strTrim s.newUrl) = true ∨ v (strTrim s.newUrl) = false ∨
      s.webhooks.any (fun w => w.url == strTrim s.newUrl) = true) :
    (handleAddWebhook v s).2 = none ∧
    (handleAddWebhook v s).1.webhooks = s.webhooks ∧
    (handleAddWebhook v s).1.urlError ≠ "" ∧
    (strIsEmpty (strTrim s.newUrl) = false → v (strTrim s.newUrl) = true →
      s.webhooks.any (fun w => w.url == strTrim s.newUrl) = true →
      (handleAddWebhook v s).1.urlError = "This webhook URL already exists") := by
  by_cases h1 : strIsEmpty (strTrim s.newUrl) = true
  · refine ⟨by simp [handleAddWebhook, h1], by simp [handleAddWebhook, h1], ?_, ?_⟩
    · simp [handleAddWebhook, h1]
    · intro hc
      rw [h1] at hc
      cases hc
  · by_cases h2 : v (strTrim s.newUrl) = true
    · by_cases h3 : s.webhooks.any (fun w => w.url == strTrim s.newUrl) = true
      · exact ⟨by simp [handleAddWebhook, h1, h2, h3],
          by simp [handleAddWebhook, h1, h2, h3],
          by simp [handleAddWebhook, h1, h2, h3],
          fun _ _ _ => by simp [handleAddWebhook, h1, h2, h3]⟩
      · rcases h with h | h | h
        · exact absurd h h1
        · rw [h2] at h
          cases h
        · exact absurd h h3
    · simp only [Bool.not_eq_true] at h2
      refine ⟨by simp [handleAddWebhook, h1, h2], by simp [handleAddWebhook, h1, h2],
        by simp [handleAddWebhook, h1, h2], ?_⟩
      intro _ hv
      rw [h2] at hv
      cases hv

/-- The add handler applied to a url already in the loaded list: rejected
with the duplicate message, nothing posted. -/
theorem invalid_webhook_url_rejected_check :
    (strIsEmpty (strTrim "https://a.example/h") = true ∨
      (fun (_ : String) => true) (strTrim "https://a.example/h") = false ∨
      ([⟨1, "https://a.example/h", "import.completed", true⟩] : List Webhook).any
        (fun w => w.url == strTrim "https://a.example/h") = true) ∧
    ((handleAddWebhook (fun _ => true)
        ⟨[⟨1, "https://a.example/h", "import.completed", true⟩],
          "https://a.example/h", ""⟩).2 = none ∧
      (handleAddWebhook (fun _ => true)
        ⟨[⟨1, "https://a.example/h", "import.completed", true⟩],
          "https://a.example/h", ""⟩).1.webhooks =
        [⟨1, "https://a.example/h", "import.completed", true⟩] ∧
      (handleAddWebhook (fun _ => true)
        ⟨[⟨1, "https://a.example/h", "import.completed", true⟩],
          "https://a.example/h", ""⟩).1.urlError ≠ "" ∧
      (strIsEmpty (strTrim "https://a.example/h") = false →
        (fun (_ : String) => true) (strTrim "https://a.example/h") = true →
        ([⟨1, "https://a.example/h", "import.completed", true⟩] : List Webhook).any
          (fun w => w.url == strTrim "https://a.example/h") = true →
        (handleAddWebhook (fun _ => true)
          ⟨[⟨1, "https://a.example/h", "import.completed", true⟩],
            "https://a.example/h", ""⟩).1.urlError =
          "This webhook URL already exists")) :=
  ⟨Or.inr (Or.inr (by decide)),
    invalid_webhook_url_rejected (fun _ => true)
      ⟨[⟨1, "https://a.example/h", "import.completed", true⟩],
        "https://a.example/h", ""⟩
      (Or.inr (Or.inr (by decide)))⟩

/-! ### Webhook test diagnostic -/

/-- Result of the backend webhook test operation (spec §4.5). -/
structure WebhookTestResult where
  success : Bool
  status_code : Nat
  latency_ms : Nat
deriving Repr, DecidableEq

/-- Modelled from the spec: the backend webhook test endpoint is not among
the repository sources.  Spec §4.5: "given a URL, perform a single
lightweight request, measure latency, and return
{success, status_code, latency_ms} without persisting anything".  `net`
gives the (status code, latency) outcome of the one request to a URL;
success is a 2xx status.  Returned alongside: the untouched webhook store
and the list of requests performed. -/
def webhookTest (store : List Webhook) (net : String → Nat × Nat) (url : String) :
    List Webhook × List String × WebhookTestResult :=
  (store, [url],
    ⟨decide (200 ≤ (net url).1 ∧ (net url).1 < 300), (net url).1, (net url).2⟩)

/-- The wire payload of POST /webhooks/test as the client reads it. -/
structure TestResponseData where
  status : String
  status_code : Nat
  latency_ms : Nat
  message : String
deriving Repr, DecidableEq

/-- Modelled from the spec: the transport encodes the test outcome with a
status string that is "success" exactly when the test succeeded, alongside
the measured status code and latency. -/
def testWire (r : WebhookTestResult) : TestResponseData :=
  ⟨if r.success then "success" else "error", r.status_code, r.latency_ms, ""⟩

/-- The per-webhook entry `handleTest` stores into `testResults`. -/
structure TestResultEntry where
  loading : Bool
  success : Bool
  statusCode : Nat
  latency : Nat
  message : String
deriving Repr, DecidableEq

/-- WebhookManager `handleTest` (part_000 lines 1322–1357), the resolved
branch: store `success` exactly when the payload's status reads "success",
with the returned status code and latency. -/
def handleTestApply (data : TestResponseData) : TestResultEntry :=
  ⟨false, data.status == "success", data.status_code, data.latency_ms, data.message⟩

/-- C5: the webhook test performs a single request and persists nothing,
returning success, status code and latency; the client reports success
exactly when the returned payload indicates success and shows the returned
status code and latency. -/
theorem webhook_test_diagnostic (store : List Webhook)
    (net : String → Nat × Nat) (url : String) :
    (webhookTest store net url).1 = store ∧
    (webhookTest store net url).2.1 = [url] ∧
    (handleTestApply (testWire (webhookTest store net url).2.2)).success =
      (webhookTest store net url).2.2.success ∧
    (handleTestApply (testWire (webhookTest store net url).2.2)).statusCode =
      (webhookTest store net url).2.2.status_code ∧
    (handleTestApply (testWire (webhookTest store net url).2.2)).latency =
      (webhookTest store net url).2.2.latency_ms := by
  refine ⟨rfl, rfl, ?_, rfl, rfl⟩
  cases hsucc : (webhookTest store net url).2.2.success with
  | false => simp [handleTestApply, testWire, hsucc]
  | true => simp [handleTestApply, testWire, hsucc]

end ProductImporter
